import Mathlib

/-!
# TraeUsage — verification of the incremental usage collector core

Shallow embedding of the TypeScript sources of the TraeUsage VSCode
extension.  JavaScript numbers holding unix timestamps and counters are
modelled as `Int`/`Nat`; the float fields `amount_float`/`cost_money_float`
are modelled as `ℚ` (all claim-relevant arithmetic on them is exact).
JavaScript objects used as string-keyed maps (`usage_details`,
`model_stats`, …) are modelled as association lists with JS-object
semantics: an assignment to an existing key updates it in place (keeping
its position), an assignment to a fresh key appends it.
-/

namespace TraeUsage

/-- `UsageDetailExtraInfo` from `types.ts`: the per-record token counters. -/
structure UsageDetailExtraInfo where
  cache_read_token : Nat
  cache_write_token : Nat
  input_token : Nat
  output_token : Nat
deriving DecidableEq, Repr

/-- `UsageDetailItem` from `types.ts`: one billed unit of activity.
`product_type_list` is irrelevant to every claim and omitted. -/
structure UsageDetailItem where
  amount_float : ℚ
  cost_money_float : ℚ
  extra_info : UsageDetailExtraInfo
  mode : String
  model_name : String
  session_id : String
  usage_time : Int
  use_max_mode : Bool
deriving DecidableEq, Repr

/-- A string-keyed JS object, keys in insertion order. -/
abbrev JsMap (α : Type) := List (String × α)

/-- Reading `obj[k]`: first binding of `k`, if any. -/
def jsGet {α : Type} (m : JsMap α) (k : String) : Option α :=
  match m with
  | [] => none
  | (k', v) :: rest => if k' = k then some v else jsGet rest k

/-- Writing `obj[k] = v`: updates the existing binding in place
(keeping its position) or appends a fresh one, as JS objects do. -/
def jsSet {α : Type} (m : JsMap α) (k : String) (v : α) : JsMap α :=
  match m with
  | [] => [(k, v)]
  | (k', v') :: rest =>
      if k' = k then (k', v) :: rest else (k', v') :: jsSet rest k v

/-- `StoredUsageData` as used by `UsageDetailCollector` (part_002):
the persisted usage store. -/
structure StoredUsageData where
  last_update_time : Int
  start_time : Int
  end_time : Int
  usage_details : JsMap UsageDetailItem
deriving DecidableEq, Repr

/-- One page of the `query_user_usage_group_by_session` response. -/
structure UsageDetailResponse where
  total : Nat
  user_usage_group_by_sessions : List UsageDetailItem
deriving DecidableEq, Repr

/-- Body of the `items.forEach` loop of
`UsageDetailCollector.processPageData`: merge one fetched record into
the store, threading the `(collected, updated)` counters. -/
def processItem (acc : StoredUsageData × Nat × Nat) (item : UsageDetailItem) :
    StoredUsageData × Nat × Nat :=
  let (data, collected, updated) := acc
  let sessionId := item.session_id
  match jsGet data.usage_details sessionId with
  | some existing =>
      if existing.usage_time ≠ item.usage_time then
        ({ data with usage_details := jsSet data.usage_details sessionId item },
         collected, updated + 1)
      else
        (data, collected, updated)
  | none =>
      ({ data with usage_details := jsSet data.usage_details sessionId item },
       collected + 1, updated)

/-- `UsageDetailCollector.processPageData`: merge a fetched page into the
store (which the source mutates in place) and report how many records were
newly collected and how many were updated. -/
def processPageData (items : List UsageDetailItem) (existingData : StoredUsageData) :
    StoredUsageData × Nat × Nat :=
  items.foldl processItem (existingData, 0, 0)

/-- `UsageDetailCollector.calculateCollectionTimeRange`: the fetch window
for one collection cycle (`now` is `Math.floor(Date.now() / 1000)`). -/
def calculateCollectionTimeRange (existingData : StoredUsageData)
    (subscriptionRange : Int × Int) (now : Int) : Int × Int :=
  let end_time := min subscriptionRange.2 now
  let start_time :=
    if existingData.last_update_time > 0 then
      existingData.last_update_time - 3600
    else
      subscriptionRange.1
  (start_time, end_time)

/-- Observable events of one `collectAllPages` run, in program order:
each page fetch (with its success flag), each in-place merge of a page
into the loaded store, and the final `saveUsageData` write. -/
inductive CollectEvent
  | fetchPage (pageNum : Nat) (ok : Bool)
  | mergePage (pageNum : Nat)
  | save
deriving DecidableEq, Repr

/-- One iteration of the `for (pageNum = 2; pageNum <= totalPages; ...)`
loop of `UsageDetailCollector.collectAllPages`: fetch the page; when the
fetch returns `null` the page is skipped, otherwise its records are merged
into the store held in the accumulator.  The accumulator carries the store,
the running `collectedCount`/`updatedCount`, and the event trace. -/
def pageStep (fetch : Nat → Option UsageDetailResponse)
    (acc : StoredUsageData × Nat × Nat × List CollectEvent) (pageNum : Nat) :
    StoredUsageData × Nat × Nat × List CollectEvent :=
  let (data, collectedCount, updatedCount, trace) := acc
  match fetch pageNum with
  | none =>
      (data, collectedCount, updatedCount,
       trace ++ [CollectEvent.fetchPage pageNum false])
  | some pageResponse =>
      let (d, collected, updated) :=
        processPageData pageResponse.user_usage_group_by_sessions data
      (d, collectedCount + collected, updatedCount + updated,
       trace ++ [CollectEvent.fetchPage pageNum true, CollectEvent.mergePage pageNum])

/-- `UsageDetailCollector.collectAllPages` (part_002, lines 146–213): the
page fetches are abstracted by the oracle `fetch pageNum`, and `saveNow` is
the `Math.floor(Date.now() / 1000)` read just before `saveUsageData`.
Returns `none` when the run throws before saving (page-1 fetch failed),
otherwise `some (savedStore, collectedCount, updatedCount)`; the second
component is the event trace of the run.  `totalPages` is
`Math.ceil(total / 50)` and pages `2..totalPages` are visited in order. -/
def collectAllPages (fetch : Nat → Option UsageDetailResponse)
    (saveNow : Int) (subscriptionRange : Int × Int)
    (existingData : StoredUsageData) :
    Option (StoredUsageData × Nat × Nat) × List CollectEvent :=
  match fetch 1 with
  | none => (none, [CollectEvent.fetchPage 1 false])
  | some firstPageResponse =>
      let totalRecords := firstPageResponse.total
      let totalPages := (totalRecords + 49) / 50
      let (d1, c1, u1) :=
        processPageData firstPageResponse.user_usage_group_by_sessions existingData
      let (d, c, u, trace) :=
        (List.range' 2 (totalPages - 1)).foldl (pageStep fetch)
          (d1, c1, u1, [CollectEvent.fetchPage 1 true, CollectEvent.mergePage 1])
      let savedStore : StoredUsageData :=
        { d with last_update_time := saveNow,
                 start_time := subscriptionRange.1,
                 end_time := subscriptionRange.2 }
      (some (savedStore, c, u), trace ++ [CollectEvent.save])

/-- Contents of the persisted `usage_data.json` after one `collectAllPages`
run whose loaded store `existingData` is what was on disk: an aborted run
never reaches `saveUsageData` (disk unchanged); a completed run writes the
final store. -/
def persistedAfter (fetch : Nat → Option UsageDetailResponse)
    (saveNow : Int) (subscriptionRange : Int × Int)
    (existingData : StoredUsageData) : StoredUsageData :=
  match (collectAllPages fetch saveNow subscriptionRange existingData).1 with
  | none => existingData
  | some (savedStore, _, _) => savedStore

/-- Is the event a page fetch? -/
def isFetchEvent : CollectEvent → Bool
  | CollectEvent.fetchPage _ _ => true
  | _ => false

/-- The discipline the specification describes for a collection cycle:
no page fetch ever happens after a merge, i.e. records are merged only
once all pages have been retrieved. -/
def noFetchAfterMerge : List CollectEvent → Bool
  | [] => true
  | CollectEvent.mergePage _ :: rest =>
      rest.all (fun e => ¬ isFetchEvent e) && noFetchAfterMerge rest
  | _ :: rest => noFetchAfterMerge rest

/-! ## Credential resolver (`apiService.ts` / part_003)

The in-memory-host variant (part_003) keeps `currentHost` as a field; the
`src/apiService.ts` variant stores the same value in the configuration.
Both run the identical token logic, so one state type covers both. -/

def DEFAULT_HOST : String := "api-sg-central"
def FALLBACK_HOST : String := "api-us-east"

/-- `MAX_RETRY_COUNT = 5` in `apiService.ts`. -/
def MAX_RETRY_COUNT : Nat := 5

/-- The mutable fields of the `ApiService` singleton. -/
structure ApiState where
  cachedToken : Option String
  cachedSessionId : Option String
  hasSwitchedHost : Bool
  currentHost : String
deriving DecidableEq, Repr

/-- Outcome of one `GetUserToken` network exchange, as observed by
`getTokenFromSession`: either a token, or an error classified by the only
two predicates the handler consults (`isTokenError`, i.e. nested error
code `20310`, and `isRetryableError`, i.e. timeout / reset / DNS / proxy). -/
inductive ExchangeOutcome
  | success (token : String)
  | failure (isTokenErr : Bool) (isRetryable : Bool)
deriving DecidableEq, Repr

/-- The cache test at the top of `getTokenFromSession`:
`this.cachedToken && this.cachedSessionId === sessionId` (a cached empty
string is falsy in JS and does not hit). -/
def cacheHit (s : ApiState) (sessionId : String) : Bool :=
  match s.cachedToken with
  | some tk => decide (tk ≠ "") && decide (s.cachedSessionId = some sessionId)
  | none => false

/-- `ApiService.getTokenFromSession`, with `handleTokenError` (its single
call site) inlined.  `env n` is the outcome of the `n`-th network exchange
of the process; `attempt` indexes the next exchange, so the returned
counter minus the initial one is the number of network calls the
invocation made.  Recursion mirrors the source: an auth error with the
failover flag unset switches the host, sets the flag and restarts with
`retryCount = 0`; a retryable error with `retryCount < MAX_RETRY_COUNT`
restarts with `retryCount + 1`; everything else returns `null`. -/
def getTokenFromSession (env : Nat → ExchangeOutcome) (attempt : Nat)
    (s : ApiState) (sessionId : String) (retryCount : Nat) :
    ApiState × Nat × Option String :=
  if cacheHit s sessionId then
    (s, attempt, s.cachedToken)
  else
    let currentHost := s.currentHost
    match env attempt with
    | ExchangeOutcome.success token =>
        ({ s with cachedToken := some token, cachedSessionId := some sessionId },
         attempt + 1, some token)
    | ExchangeOutcome.failure isTokenErr isRetryable =>
        if isTokenErr then
          if ¬ s.hasSwitchedHost then
            let otherHost :=
              if currentHost = DEFAULT_HOST then FALLBACK_HOST else DEFAULT_HOST
            getTokenFromSession env (attempt + 1)
              { s with currentHost := otherHost, hasSwitchedHost := true }
              sessionId 0
          else
            (s, attempt + 1, none)
        else if isRetryable ∧ retryCount < MAX_RETRY_COUNT then
          getTokenFromSession env (attempt + 1) s sessionId (retryCount + 1)
        else
          (s, attempt + 1, none)
termination_by (if s.hasSwitchedHost then 0 else 7) + (6 - retryCount)
decreasing_by
  · simp_all
    omega
  · simp only [MAX_RETRY_COUNT] at *
    omega

/-- `ApiService.clearCache` (part_003 variant, which also resets the
in-memory host to the default). -/
def clearCache (_s : ApiState) : ApiState :=
  { cachedToken := none
    cachedSessionId := none
    hasSwitchedHost := false
    currentHost := DEFAULT_HOST }

/-! ## Aggregator (`UsageDashboardGenerator.generateSummary`, part_000)

The `usageCollector.ts` variant differs only in the mode label
(`item.mode || 'Normal'` instead of `use_max_mode ? 'Max' : 'Normal'`)
and in collecting the per-day model set through a `Set`; the model/total
accumulation proven about here is identical in both.  The calendar-date
bucketing `new Date(usage_time * 1000).toISOString().split('T')[0]` is an
external library call, abstracted by the parameter `dateOf`. -/

/-- `ModelStats` from `types.ts`. -/
structure ModelStats where
  count : Nat
  amount : ℚ
  cost : ℚ
  input_tokens : Nat
  output_tokens : Nat
  cache_read_tokens : Nat
  cache_write_tokens : Nat
deriving DecidableEq, Repr

/-- `ModeStats` from `types.ts`. -/
structure ModeStats where
  count : Nat
  amount : ℚ
  cost : ℚ
deriving DecidableEq, Repr

/-- `DailyStats` from `types.ts` (the dashboard variant keeps the model
names of a day in an array without duplicates). -/
structure DailyStats where
  count : Nat
  amount : ℚ
  cost : ℚ
  models : List String
deriving DecidableEq, Repr

/-- `UsageSummary` from `types.ts`. -/
structure UsageSummary where
  total_amount : ℚ
  total_cost : ℚ
  total_sessions : Nat
  model_stats : JsMap ModelStats
  mode_stats : JsMap ModeStats
  daily_stats : JsMap DailyStats
deriving DecidableEq, Repr

/-- Body of the `usageDetails.forEach` loop of `generateSummary`:
accumulate one record into the totals and the three stat maps.  A missing
bucket is first created zeroed, exactly as the source initialises
`{count: 0, ...}` before incrementing. -/
def summaryStep (dateOf : Int → String) (summary : UsageSummary)
    (item : UsageDetailItem) : UsageSummary :=
  let s1 := { summary with
    total_amount := summary.total_amount + item.amount_float
    total_cost := summary.total_cost + item.cost_money_float }
  let modelName := item.model_name
  let ms := (jsGet s1.model_stats modelName).getD
    { count := 0, amount := 0, cost := 0, input_tokens := 0, output_tokens := 0,
      cache_read_tokens := 0, cache_write_tokens := 0 }
  let msNew : ModelStats :=
    { count := ms.count + 1
      amount := ms.amount + item.amount_float
      cost := ms.cost + item.cost_money_float
      input_tokens := ms.input_tokens + item.extra_info.input_token
      output_tokens := ms.output_tokens + item.extra_info.output_token
      cache_read_tokens := ms.cache_read_tokens + item.extra_info.cache_read_token
      cache_write_tokens := ms.cache_write_tokens + item.extra_info.cache_write_token }
  let s2 := { s1 with model_stats := jsSet s1.model_stats modelName msNew }
  let mode := if item.use_max_mode then "Max" else "Normal"
  let mo := (jsGet s2.mode_stats mode).getD { count := 0, amount := 0, cost := 0 }
  let moNew : ModeStats :=
    { count := mo.count + 1
      amount := mo.amount + item.amount_float
      cost := mo.cost + item.cost_money_float }
  let s3 := { s2 with mode_stats := jsSet s2.mode_stats mode moNew }
  let date := dateOf item.usage_time
  let ds := (jsGet s3.daily_stats date).getD
    { count := 0, amount := 0, cost := 0, models := [] }
  let dsNew : DailyStats :=
    { count := ds.count + 1
      amount := ds.amount + item.amount_float
      cost := ds.cost + item.cost_money_float
      models := if ds.models.contains modelName then ds.models
                else ds.models ++ [modelName] }
  { s3 with daily_stats := jsSet s3.daily_stats date dsNew }

/-- `UsageDashboardGenerator.generateSummary` (part_000, lines 63–122). -/
def generateSummary (dateOf : Int → String)
    (usageDetails : List UsageDetailItem) : UsageSummary :=
  usageDetails.foldl (summaryStep dateOf)
    { total_amount := 0, total_cost := 0, total_sessions := usageDetails.length,
      model_stats := [], mode_stats := [], daily_stats := [] }

/-! ## Map lemmas -/

theorem jsGet_jsSet_self {α : Type} (m : JsMap α) (k : String) (v : α) :
    jsGet (jsSet m k v) k = some v := by
  induction m with
  | nil => simp [jsGet, jsSet]
  | cons hd tl ih =>
      obtain ⟨k', v'⟩ := hd
      by_cases h : k' = k
      · simp [jsGet, jsSet, h]
      · simp [jsGet, jsSet, h, ih]

theorem jsGet_jsSet_ne {α : Type} (m : JsMap α) (k q : String) (v : α)
    (h : q ≠ k) : jsGet (jsSet m k v) q = jsGet m q := by
  induction m with
  | nil => simp [jsGet, jsSet, Ne.symm h]
  | cons hd tl ih =>
      obtain ⟨k', v'⟩ := hd
      by_cases h2 : k' = k
      · subst h2
        simp [jsGet, jsSet, Ne.symm h]
      · simp [jsGet, jsSet, h2, ih]

/-! ## Claim theorems: the merge (C3, C5) and the window (C4) -/

/-- C3: for every fetched record processed by the merge step of
`processPageData`: an absent `session_id` is inserted (other keys
untouched) and counted as collected; a present one with a different
`usage_time` is overwritten with the fetched record and counted as
updated; a present one with the same `usage_time` leaves store and
counters exactly as they were. -/
theorem processPageData_per_record (data : StoredUsageData) (c u : Nat)
    (item : UsageDetailItem) :
    (jsGet data.usage_details item.session_id = none →
      jsGet (processItem (data, c, u) item).1.usage_details item.session_id
          = some item ∧
      (∀ q, q ≠ item.session_id →
        jsGet (processItem (data, c, u) item).1.usage_details q
          = jsGet data.usage_details q) ∧
      (processItem (data, c, u) item).2 = (c + 1, u)) ∧
    (∀ e, jsGet data.usage_details item.session_id = some e →
      e.usage_time ≠ item.usage_time →
      jsGet (processItem (data, c, u) item).1.usage_details item.session_id
          = some item ∧
      (∀ q, q ≠ item.session_id →
        jsGet (processItem (data, c, u) item).1.usage_details q
          = jsGet data.usage_details q) ∧
      (processItem (data, c, u) item).2 = (c, u + 1)) ∧
    (∀ e, jsGet data.usage_details item.session_id = some e →
      e.usage_time = item.usage_time →
      processItem (data, c, u) item = (data, c, u)) := by
  refine ⟨fun hnone => ?_, fun e hsome hne => ?_, fun e hsome heq => ?_⟩
  · simp only [processItem, hnone]
    exact ⟨jsGet_jsSet_self _ _ _, fun q hq => jsGet_jsSet_ne _ _ _ _ hq, trivial⟩
  · simp only [processItem, hsome, if_pos hne]
    exact ⟨jsGet_jsSet_self _ _ _, fun q hq => jsGet_jsSet_ne _ _ _ _ hq, trivial⟩
  · simp [processItem, hsome, heq]

/-- A concrete record for witnesses: session `s1` at usage time 100. -/
def wItem100 : UsageDetailItem :=
  { amount_float := 1, cost_money_float := 1, extra_info := ⟨0, 0, 0, 0⟩,
    mode := "", model_name := "A", session_id := "s1", usage_time := 100,
    use_max_mode := false }

/-- The same session `s1` re-fetched at usage time 200. -/
def wItem200 : UsageDetailItem := { wItem100 with usage_time := 200 }

/-- Witness for `processPageData_per_record`: the three cases on concrete
stores and records. -/
theorem processPageData_per_record_witness :
    (jsGet (processItem (⟨0, 0, 0, []⟩, 0, 0) wItem100).1.usage_details "s1"
        = some wItem100 ∧
      (processItem (⟨0, 0, 0, []⟩, 0, 0) wItem100).2 = (1, 0)) ∧
    (jsGet (processItem (⟨0, 0, 0, [("s1", wItem100)]⟩, 3, 4) wItem200).1.usage_details "s1"
        = some wItem200 ∧
      (processItem (⟨0, 0, 0, [("s1", wItem100)]⟩, 3, 4) wItem200).2 = (3, 5)) ∧
    processItem (⟨0, 0, 0, [("s1", wItem100)]⟩, 3, 4) wItem100
      = (⟨0, 0, 0, [("s1", wItem100)]⟩, 3, 4) := by
  refine ⟨⟨?_, ?_⟩, ⟨?_, ?_⟩, ?_⟩
  · exact ((processPageData_per_record ⟨0, 0, 0, []⟩ 0 0 wItem100).1 (by rfl)).1
  · exact ((processPageData_per_record ⟨0, 0, 0, []⟩ 0 0 wItem100).1 (by rfl)).2.2
  · exact ((processPageData_per_record ⟨0, 0, 0, [("s1", wItem100)]⟩ 3 4
      wItem200).2.1 wItem100 (by rfl) (by decide)).1
  · exact ((processPageData_per_record ⟨0, 0, 0, [("s1", wItem100)]⟩ 3 4
      wItem200).2.1 wItem100 (by rfl) (by decide)).2.2
  · exact (processPageData_per_record ⟨0, 0, 0, [("s1", wItem100)]⟩ 3 4
      wItem100).2.2 wItem100 (by rfl) rfl

/-- C4: the fetch window computed by `calculateCollectionTimeRange`
satisfies `end = min(subscriptionWindow.endTime, now)`, and
`start = lastUpdateTime - 3600` whenever the loaded store's
`lastUpdateTime > 0`, while a first-ever collection
(`lastUpdateTime = 0`) starts at the subscription's own start. -/
theorem calculateCollectionTimeRange_spec (existingData : StoredUsageData)
    (subscriptionRange : Int × Int) (now : Int) :
    (calculateCollectionTimeRange existingData subscriptionRange now).2
        = min subscriptionRange.2 now ∧
    (existingData.last_update_time > 0 →
      (calculateCollectionTimeRange existingData subscriptionRange now).1
          = existingData.last_update_time - 3600) ∧
    (existingData.last_update_time = 0 →
      (calculateCollectionTimeRange existingData subscriptionRange now).1
          = subscriptionRange.1) := by
  refine ⟨rfl, fun h => ?_, fun h => ?_⟩
  · simp [calculateCollectionTimeRange, if_pos h]
  · simp [calculateCollectionTimeRange, h]

/-- Witness for `calculateCollectionTimeRange_spec`: store last updated at
1000, subscription window `[500, 5000]`, `now = 6000`; and the first-ever
store. -/
theorem calculateCollectionTimeRange_spec_witness :
    (calculateCollectionTimeRange ⟨1000, 0, 0, []⟩ (500, 5000) 6000).2
        = min 5000 6000 ∧
    (calculateCollectionTimeRange ⟨1000, 0, 0, []⟩ (500, 5000) 6000).1
        = 1000 - 3600 ∧
    (calculateCollectionTimeRange ⟨0, 0, 0, []⟩ (500, 5000) 6000).1 = 500 := by
  refine ⟨?_, ?_, ?_⟩
  · exact (calculateCollectionTimeRange_spec ⟨1000, 0, 0, []⟩ (500, 5000) 6000).1
  · exact (calculateCollectionTimeRange_spec ⟨1000, 0, 0, []⟩ (500, 5000) 6000).2.1
      (by decide)
  · exact (calculateCollectionTimeRange_spec ⟨0, 0, 0, []⟩ (500, 5000) 6000).2.2 rfl

/-- The merge loop leaves its accumulator completely unchanged when the
store already holds every incoming record's `session_id` with the same
`usage_time`. -/
theorem foldl_processItem_untouched (items : List UsageDetailItem) :
    ∀ (data : StoredUsageData) (c u : Nat),
    (∀ item ∈ items, ∃ e, jsGet data.usage_details item.session_id = some e ∧
      e.usage_time = item.usage_time) →
    items.foldl processItem (data, c, u) = (data, c, u) := by
  induction items with
  | nil => intro data c u _; rfl
  | cons hd tl ih =>
      intro data c u h
      obtain ⟨e, he, ht⟩ := h hd (List.mem_cons_self hd tl)
      have step : processItem (data, c, u) hd = (data, c, u) := by
        simp [processItem, he, ht]
      rw [List.foldl_cons, step]
      exact ih data c u (fun it hit => h it (List.mem_cons_of_mem hd hit))

/-- C5: merging a page of fetched records a second time into a store that
already contains every one of them (same `session_id`, same `usage_time`)
leaves the records map unchanged and reports zero collected and zero
updated. -/
theorem processPageData_idempotent (items : List UsageDetailItem)
    (data : StoredUsageData)
    (h : ∀ item ∈ items, ∃ e, jsGet data.usage_details item.session_id = some e ∧
      e.usage_time = item.usage_time) :
    processPageData items data = (data, 0, 0) :=
  foldl_processItem_untouched items data 0 0 h

/-- Witness for `processPageData_idempotent`: re-merging `s1` into a store
already holding it. -/
theorem processPageData_idempotent_witness :
    processPageData [wItem100] ⟨0, 0, 0, [("s1", wItem100)]⟩
      = (⟨0, 0, 0, [("s1", wItem100)]⟩, 0, 0) := by
  refine processPageData_idempotent [wItem100] ⟨0, 0, 0, [("s1", wItem100)]⟩ ?_
  intro it hit
  have : it = wItem100 := by simpa using hit
  subst this
  exact ⟨wItem100, by rfl, rfl⟩

/-! ## C1 / C2: persistence and interleaving of the page loop -/

/-- Page oracle on which the all-or-nothing claim fails: page 1 reports 51
total records (so `totalPages = Math.ceil(51 / 50) = 2`) and delivers one
record; the page-2 fetch fails (`null`). -/
def c1Fetch : Nat → Option UsageDetailResponse :=
  fun n => if n = 1 then some ⟨51, [wItem100]⟩ else none

/-- C1 counterexample: with page 2 of 2 failing, the cycle still saves,
and the persisted store after the attempt differs from the store before
it — the loop body only guards the merge with `if (pageResponse)`, so a
failed later page is skipped rather than aborting the cycle. -/
theorem collectAllPages_persistence_cex :
    c1Fetch 2 = none ∧
    persistedAfter c1Fetch 100 (10, 20) ⟨0, 0, 0, []⟩
      = ⟨100, 10, 20, [("s1", wItem100)]⟩ ∧
    persistedAfter c1Fetch 100 (10, 20) ⟨0, 0, 0, []⟩ ≠ ⟨0, 0, 0, []⟩ := by
  refine ⟨rfl, by rfl, by decide⟩

/-- C1 (amended): only a failure of the page-1 fetch aborts the cycle, and
then the persisted store is unchanged; whenever page 1 succeeds the cycle
always reaches `saveUsageData` and persists, even if a fetch among pages
`2..totalPages` failed — such a page is merely skipped, leaving the
accumulated store and counters untouched. -/
theorem collectAllPages_abort_only_on_first_page
    (fetch : Nat → Option UsageDetailResponse) (saveNow : Int)
    (subscriptionRange : Int × Int) (existingData : StoredUsageData) :
    (fetch 1 = none →
      (collectAllPages fetch saveNow subscriptionRange existingData).1 = none ∧
      persistedAfter fetch saveNow subscriptionRange existingData = existingData) ∧
    (∀ r, fetch 1 = some r →
      ∃ out, (collectAllPages fetch saveNow subscriptionRange existingData).1
        = some out) ∧
    (∀ acc k, fetch k = none →
      pageStep fetch acc k
        = (acc.1, acc.2.1, acc.2.2.1,
           acc.2.2.2 ++ [CollectEvent.fetchPage k false])) := by
  refine ⟨fun h => ?_, fun r hr => ?_, fun acc k hk => ?_⟩
  · exact ⟨by simp [collectAllPages, h], by simp [persistedAfter, collectAllPages, h]⟩
  · simp [collectAllPages, hr]
  · simp [pageStep, hk]

/-- Witness for `collectAllPages_abort_only_on_first_page`: a run whose
page-1 fetch fails leaves the store unchanged; a run whose page-1 fetch
succeeds persists; a failed later page is a no-op on the accumulator. -/
theorem collectAllPages_abort_only_on_first_page_witness :
    persistedAfter (fun _ => none) 5 (1, 2) ⟨0, 0, 0, []⟩ = ⟨0, 0, 0, []⟩ ∧
    (∃ out, (collectAllPages c1Fetch 100 (10, 20) ⟨0, 0, 0, []⟩).1 = some out) ∧
    pageStep (fun _ => none) (⟨0, 0, 0, []⟩, 0, 0, []) 2
      = (⟨0, 0, 0, []⟩, 0, 0, [CollectEvent.fetchPage 2 false]) := by
  refine ⟨((collectAllPages_abort_only_on_first_page (fun _ => none) 5 (1, 2)
      ⟨0, 0, 0, []⟩).1 rfl).2, ?_, ?_⟩
  · exact (collectAllPages_abort_only_on_first_page c1Fetch 100 (10, 20)
      ⟨0, 0, 0, []⟩).2.1 ⟨51, [wItem100]⟩ rfl
  · have := (collectAllPages_abort_only_on_first_page (fun _ => none) 5 (1, 2)
      ⟨0, 0, 0, []⟩).2.2 (⟨0, 0, 0, []⟩, 0, 0, []) 2 rfl
    simpa using this

/-- A second record, session `s2`, for the two-page run. -/
def wItem2 : UsageDetailItem := { wItem100 with session_id := "s2" }

/-- Page oracle for the interleaving counterexample: two successful pages
(51 total records, so `totalPages = 2`). -/
def c2Fetch : Nat → Option UsageDetailResponse :=
  fun n =>
    if n = 1 then some ⟨51, [wItem100]⟩
    else if n = 2 then some ⟨51, [wItem2]⟩ else none

/-- C2 counterexample: in a fully successful two-page run the merge of
page 1 happens before the fetch of page 2 — the trace violates the
"merge only after all pages are retrieved" discipline
(`noFetchAfterMerge` is `false`), because `processPageData` mutates the
loaded store in place immediately after each page fetch. -/
theorem collectAllPages_interleaving_cex :
    (collectAllPages c2Fetch 100 (10, 20) ⟨0, 0, 0, []⟩).2
      = [CollectEvent.fetchPage 1 true, CollectEvent.mergePage 1,
         CollectEvent.fetchPage 2 true, CollectEvent.mergePage 2,
         CollectEvent.save] ∧
    noFetchAfterMerge ((collectAllPages c2Fetch 100 (10, 20) ⟨0, 0, 0, []⟩).2)
      = false := by
  exact ⟨rfl, rfl⟩

/-- The events contributed by one visit of the page loop to page `k`. -/
def pageBlock (fetch : Nat → Option UsageDetailResponse) (k : Nat) :
    List CollectEvent :=
  match fetch k with
  | none => [CollectEvent.fetchPage k false]
  | some _ => [CollectEvent.fetchPage k true, CollectEvent.mergePage k]

/-- The page loop appends exactly one `pageBlock` per visited page, in
page order, to whatever trace it starts from. -/
theorem foldl_pageStep_trace (fetch : Nat → Option UsageDetailResponse)
    (l : List Nat) :
    ∀ (data : StoredUsageData) (c u : Nat) (tr : List CollectEvent),
    (l.foldl (pageStep fetch) (data, c, u, tr)).2.2.2
      = tr ++ (l.map (pageBlock fetch)).flatten := by
  induction l with
  | nil => intro data c u tr; simp
  | cons hd tl ih =>
      intro data c u tr
      cases hf : fetch hd with
      | none => simp [pageStep, hf, ih, pageBlock]
      | some r => simp [pageStep, hf, ih, pageBlock]

/-- C2 (amended): the cycle merges each page's records into the loaded
store object immediately after that page's own fetch — fetches and merges
strictly interleave in increasing page order, rather than every fetch
preceding every merge — and the single `save` event comes once, at the
end of the loop, whenever the page-1 fetch succeeded. -/
theorem collectAllPages_trace_shape (fetch : Nat → Option UsageDetailResponse)
    (saveNow : Int) (subscriptionRange : Int × Int)
    (existingData : StoredUsageData) :
    (∀ r, fetch 1 = some r →
      (collectAllPages fetch saveNow subscriptionRange existingData).2
        = pageBlock fetch 1 ++
          ((List.range' 2 ((r.total + 49) / 50 - 1)).map (pageBlock fetch)).flatten ++
          [CollectEvent.save]) ∧
    (fetch 1 = none →
      (collectAllPages fetch saveNow subscriptionRange existingData).2
        = [CollectEvent.fetchPage 1 false]) := by
  refine ⟨fun r hr => ?_, fun h => by simp [collectAllPages, h]⟩
  simp only [collectAllPages, hr, pageBlock]
  rw [foldl_pageStep_trace]

/-- Witness for `collectAllPages_trace_shape`: the two-page run and a
failing-first-page run, with explicit traces. -/
theorem collectAllPages_trace_shape_witness :
    (collectAllPages c2Fetch 100 (10, 20) ⟨0, 0, 0, []⟩).2
      = pageBlock c2Fetch 1 ++
        ((List.range' 2 ((51 + 49) / 50 - 1)).map (pageBlock c2Fetch)).flatten ++
        [CollectEvent.save] ∧
    (collectAllPages (fun _ => none) 100 (10, 20) ⟨0, 0, 0, []⟩).2
      = [CollectEvent.fetchPage 1 false] := by
  constructor
  · exact (collectAllPages_trace_shape c2Fetch 100 (10, 20) ⟨0, 0, 0, []⟩).1
      ⟨51, [wItem100]⟩ rfl
  · exact (collectAllPages_trace_shape (fun _ => none) 100 (10, 20)
      ⟨0, 0, 0, []⟩).2 rfl

/-! ## C6 / C7 / C8 / C10: the credential resolver -/

/-- Switching host and setting the failover flag does not touch the token
cache, so the cache test is unchanged. -/
theorem cacheHit_switch (s : ApiState) (h : String) (b : Bool) (sid : String) :
    cacheHit { s with currentHost := h, hasSwitchedHost := b } sid
      = cacheHit s sid := rfl

/-- Under persistent retryable (transient) errors, a run entered with
`retryCount = 5 - d` makes exactly `d + 1` further exchange attempts and
returns `null`, leaving the whole resolver state untouched. -/
theorem getTokenFromSession_transient_aux (env : Nat → ExchangeOutcome)
    (s : ApiState) (sid : String)
    (hc : cacheHit s sid = false) :
    ∀ d, d ≤ 5 → ∀ a, (∀ k, a ≤ k → env k = ExchangeOutcome.failure false true) →
    getTokenFromSession env a s sid (5 - d)
      = (s, a + (d + 1), none) := by
  intro d
  induction d with
  | zero =>
      intro _ a henv
      rw [getTokenFromSession.eq_def]
      simp [hc, henv a le_rfl, MAX_RETRY_COUNT]
  | succ d ih =>
      intro hd a henv
      rw [getTokenFromSession.eq_def]
      have hlt : 5 - (d + 1) < MAX_RETRY_COUNT := by
        simp only [MAX_RETRY_COUNT]; omega
      have hstep : 5 - (d + 1) + 1 = 5 - d := by omega
      simp only [hc, Bool.false_eq_true, if_false, henv a le_rfl, hlt, hstep,
        and_true, true_and, if_true]
      rw [ih (by omega) (a + 1) (fun k hk => henv k (by omega))]
      have harith : a + 1 + (d + 1) = a + (d + 1 + 1) := by omega
      rw [harith]

/-- C6: the resolver performs at most one host failover per
credential-resolution attempt.  With the failover flag unset, a first
authentication-error response switches the host and retries the exchange
exactly once more (the retry counter reset to zero is what lets that retry
happen for any incoming `retryCount`); a second consecutive
authentication error then terminates with `null`, the flag set and the
host switched exactly once.  With the flag already set, an authentication
error terminates immediately with `null` and no host change. -/
theorem getTokenFromSession_failover_once (env : Nat → ExchangeOutcome)
    (a : Nat) (s : ApiState) (sid : String) (rc : Nat) (b1 b2 : Bool)
    (hc : cacheHit s sid = false) :
    (s.hasSwitchedHost = false →
      env a = ExchangeOutcome.failure true b1 →
      env (a + 1) = ExchangeOutcome.failure true b2 →
      getTokenFromSession env a s sid rc
        = ({ s with
              currentHost :=
                if s.currentHost = DEFAULT_HOST then FALLBACK_HOST else DEFAULT_HOST,
              hasSwitchedHost := true }, a + 2, none)) ∧
    (s.hasSwitchedHost = true →
      env a = ExchangeOutcome.failure true b1 →
      getTokenFromSession env a s sid rc = (s, a + 1, none)) ∧
    (s.hasSwitchedHost = false →
      env a = ExchangeOutcome.failure true b1 →
      (∀ k, a + 1 ≤ k → env k = ExchangeOutcome.failure false true) →
      getTokenFromSession env a s sid rc
        = ({ s with
              currentHost :=
                if s.currentHost = DEFAULT_HOST then FALLBACK_HOST else DEFAULT_HOST,
              hasSwitchedHost := true }, a + 7, none)) := by
  refine ⟨?_, ?_, ?_⟩
  · intro hsw h1 h2
    rw [getTokenFromSession.eq_def]
    simp only [hc, Bool.false_eq_true, if_false, h1, hsw, not_false_iff, if_true]
    rw [getTokenFromSession.eq_def]
    simp only [cacheHit_switch, hc, Bool.false_eq_true, if_false, h2]
    simp
  · intro hsw h1
    rw [getTokenFromSession.eq_def]
    simp [hc, h1, hsw]
  · intro hsw h1 henv
    rw [getTokenFromSession.eq_def]
    simp only [hc, Bool.false_eq_true, if_false, h1, hsw, not_false_iff, if_true]
    have h50 : (5 : Nat) - 5 = 0 := rfl
    have := getTokenFromSession_transient_aux env
      { s with
        currentHost :=
          if s.currentHost = DEFAULT_HOST then FALLBACK_HOST else DEFAULT_HOST,
        hasSwitchedHost := true } sid hc 5 (by omega) (a + 1) henv
    rw [h50] at this
    rw [this]

/-- Witness for `getTokenFromSession_failover_once`: persistent
authentication errors from a fresh resolver switch once and stop; from an
already-switched resolver they stop at once. -/
theorem getTokenFromSession_failover_once_witness :
    getTokenFromSession (fun _ => ExchangeOutcome.failure true false) 0
        ⟨none, none, false, DEFAULT_HOST⟩ "x" 0
      = (⟨none, none, true, FALLBACK_HOST⟩, 2, none) ∧
    getTokenFromSession (fun _ => ExchangeOutcome.failure true false) 0
        ⟨none, none, true, FALLBACK_HOST⟩ "x" 0
      = (⟨none, none, true, FALLBACK_HOST⟩, 1, none) ∧
    getTokenFromSession
        (fun n => if n = 0 then ExchangeOutcome.failure true false
                  else ExchangeOutcome.failure false true) 0
        ⟨none, none, false, DEFAULT_HOST⟩ "x" 5
      = (⟨none, none, true, FALLBACK_HOST⟩, 7, none) := by
  refine ⟨?_, ?_, ?_⟩
  · have := (getTokenFromSession_failover_once
      (fun _ => ExchangeOutcome.failure true false) 0
      ⟨none, none, false, DEFAULT_HOST⟩ "x" 0 false false rfl).1 rfl rfl rfl
    simpa using this
  · exact (getTokenFromSession_failover_once
      (fun _ => ExchangeOutcome.failure true false) 0
      ⟨none, none, true, FALLBACK_HOST⟩ "x" 0 false false rfl).2.1 rfl rfl
  · have := (getTokenFromSession_failover_once
      (fun n => if n = 0 then ExchangeOutcome.failure true false
                else ExchangeOutcome.failure false true) 0
      ⟨none, none, false, DEFAULT_HOST⟩ "x" 5 false true rfl).2.2 rfl rfl
      (fun k hk => by
        have hne : k ≠ 0 := by omega
        simp [hne])
    simpa using this

/-- C7: under persistent transient network errors `getTokenFromSession`
(entered at `retryCount = 0`, with no cache hit) makes exactly
`1 + MAX_RETRY_COUNT = 6` token-exchange attempts and then returns
`null`; the resolver state — in particular the failover flag — is left
exactly as it was, so a transient-error retry never resets it. -/
theorem getTokenFromSession_retry_bound (env : Nat → ExchangeOutcome)
    (a : Nat) (s : ApiState) (sid : String)
    (hc : cacheHit s sid = false)
    (henv : ∀ k, env k = ExchangeOutcome.failure false true) :
    getTokenFromSession env a s sid 0 = (s, a + (1 + MAX_RETRY_COUNT), none) ∧
    (getTokenFromSession env a s sid 0).1.hasSwitchedHost
      = s.hasSwitchedHost := by
  have h5 : (5 : Nat) - 5 = 0 := rfl
  have := getTokenFromSession_transient_aux env s sid hc 5 (by omega) a
    (fun k _ => henv k)
  rw [h5] at this
  constructor
  · rw [this]; rfl
  · rw [this]

/-- Witness for `getTokenFromSession_retry_bound`: six attempts on a fresh
resolver under a permanent timeout. -/
theorem getTokenFromSession_retry_bound_witness :
    getTokenFromSession (fun _ => ExchangeOutcome.failure false true) 0
        ⟨none, none, false, DEFAULT_HOST⟩ "x" 0
      = (⟨none, none, false, DEFAULT_HOST⟩, 6, none) := by
  have := (getTokenFromSession_retry_bound
    (fun _ => ExchangeOutcome.failure false true) 0
    ⟨none, none, false, DEFAULT_HOST⟩ "x" rfl (fun _ => rfl)).1
  simpa [MAX_RETRY_COUNT] using this

/-- C8 (amended): a call with the cached session id returns the cached
token with no network exchange; a call with a different session id merely
misses the cache — the cache is not invalidated up front.  The old pair is
overwritten only when the new exchange succeeds; when the exchange fails
terminally the previous `(sessionId, token)` pair survives the call
untouched. -/
theorem getTokenFromSession_cache_behavior (env : Nat → ExchangeOutcome)
    (a : Nat) (s : ApiState) (sid : String) :
    (cacheHit s sid = true →
      getTokenFromSession env a s sid 0 = (s, a, s.cachedToken)) ∧
    (cacheHit s sid = false → ∀ tok, env a = ExchangeOutcome.success tok →
      getTokenFromSession env a s sid 0
        = ({ s with cachedToken := some tok, cachedSessionId := some sid },
           a + 1, some tok)) ∧
    (cacheHit s sid = false →
      env a = ExchangeOutcome.failure false false →
      getTokenFromSession env a s sid 0 = (s, a + 1, none)) := by
  refine ⟨fun hc => ?_, fun hc tok htok => ?_, fun hc herr => ?_⟩
  · rw [getTokenFromSession.eq_def]
    simp [hc]
  · rw [getTokenFromSession.eq_def]
    simp [hc, htok]
  · rw [getTokenFromSession.eq_def]
    simp [hc, herr]

/-- A resolver still holding the token of session `old`. -/
def c8State : ApiState := ⟨some "tokOld", some "old", false, DEFAULT_HOST⟩

/-- An exchange that always fails with a terminal (neither token-code nor
retryable) error. -/
def c8Env : Nat → ExchangeOutcome := fun _ => ExchangeOutcome.failure false false

/-- C8 counterexample: asking for session `new` misses the cache and does
attempt one exchange, but the cache is not invalidated — after the failed
call the stale pair for session `old` is still cached, and a following
call for `old` is served that stale token with no network call. -/
theorem getTokenFromSession_stale_cache_cex :
    (getTokenFromSession c8Env 0 c8State "new" 0).2.2 = none ∧
    (getTokenFromSession c8Env 0 c8State "new" 0).2.1 = 1 ∧
    (getTokenFromSession c8Env 0 c8State "new" 0).1.cachedToken
      = some "tokOld" ∧
    (getTokenFromSession c8Env 0 c8State "new" 0).1.cachedSessionId
      = some "old" ∧
    getTokenFromSession c8Env 1 (getTokenFromSession c8Env 0 c8State "new" 0).1
        "old" 0
      = (c8State, 1, some "tokOld") := by
  have h1 : getTokenFromSession c8Env 0 c8State "new" 0 = (c8State, 1, none) := by
    rw [getTokenFromSession.eq_def]
    simp [c8Env, c8State, cacheHit]
  have h2 : getTokenFromSession c8Env 1 c8State "old" 0
      = (c8State, 1, some "tokOld") := by
    rw [getTokenFromSession.eq_def]
    simp [cacheHit, c8State]
  rw [h1]
  exact ⟨rfl, rfl, rfl, rfl, h2⟩

/-- Witness for `getTokenFromSession_cache_behavior`: cache hit, successful
overwrite, and surviving stale pair, on concrete states. -/
theorem getTokenFromSession_cache_behavior_witness :
    getTokenFromSession c8Env 0 c8State "old" 0 = (c8State, 0, some "tokOld") ∧
    getTokenFromSession (fun _ => ExchangeOutcome.success "tokNew") 0 c8State
        "new" 0
      = (⟨some "tokNew", some "new", false, DEFAULT_HOST⟩, 1, some "tokNew") ∧
    getTokenFromSession c8Env 0 c8State "new" 0 = (c8State, 1, none) := by
  refine ⟨?_, ?_, ?_⟩
  · exact (getTokenFromSession_cache_behavior c8Env 0 c8State "old").1 rfl
  · have := (getTokenFromSession_cache_behavior
      (fun _ => ExchangeOutcome.success "tokNew") 0 c8State "new").2.1 rfl
      "tokNew" rfl
    simpa [c8State] using this
  · exact (getTokenFromSession_cache_behavior c8Env 0 c8State "new").2.2 rfl rfl

/-- C10: `clearCache` nulls the cached token and session id and clears the
failover flag; therefore the next `getTokenFromSession` call, for any
session id, cannot hit the cache and performs a network exchange, and one
host failover is permitted again even if one had already happened before
the clear. -/
theorem clearCache_spec (s : ApiState) (env : Nat → ExchangeOutcome)
    (sid : String) (a : Nat) :
    (clearCache s).cachedToken = none ∧
    (clearCache s).cachedSessionId = none ∧
    (clearCache s).hasSwitchedHost = false ∧
    cacheHit (clearCache s) sid = false ∧
    (∀ tok, env a = ExchangeOutcome.success tok →
      getTokenFromSession env a (clearCache s) sid 0
        = (⟨some tok, some sid, false, DEFAULT_HOST⟩, a + 1, some tok)) ∧
    (∀ b tok, env a = ExchangeOutcome.failure true b →
      env (a + 1) = ExchangeOutcome.success tok →
      getTokenFromSession env a (clearCache s) sid 0
        = (⟨some tok, some sid, true, FALLBACK_HOST⟩, a + 2, some tok)) := by
  refine ⟨rfl, rfl, rfl, rfl, fun tok htok => ?_, fun b tok herr htok => ?_⟩
  · rw [getTokenFromSession.eq_def]
    simp [clearCache, cacheHit, htok]
  · rw [getTokenFromSession.eq_def]
    simp only [clearCache, cacheHit, Bool.false_eq_true, if_false, herr,
      not_false_iff, if_true]
    rw [getTokenFromSession.eq_def]
    simp [cacheHit, htok, DEFAULT_HOST, FALLBACK_HOST]

/-- Witness for `clearCache_spec`: clearing an already-switched resolver
with a cached token; afterwards one exchange succeeds directly, and an
auth error is again allowed one failover before succeeding. -/
theorem clearCache_spec_witness :
    (clearCache ⟨some "t", some "x", true, FALLBACK_HOST⟩).cachedToken = none ∧
    (clearCache ⟨some "t", some "x", true, FALLBACK_HOST⟩).hasSwitchedHost
      = false ∧
    getTokenFromSession (fun _ => ExchangeOutcome.success "fresh") 0
        (clearCache ⟨some "t", some "x", true, FALLBACK_HOST⟩) "x" 0
      = (⟨some "fresh", some "x", false, DEFAULT_HOST⟩, 1, some "fresh") ∧
    getTokenFromSession
        (fun n => if n = 0 then ExchangeOutcome.failure true false
                  else ExchangeOutcome.success "fresh") 0
        (clearCache ⟨some "t", some "x", true, FALLBACK_HOST⟩) "x" 0
      = (⟨some "fresh", some "x", true, FALLBACK_HOST⟩, 2, some "fresh") := by
  refine ⟨?_, ?_, ?_, ?_⟩
  · exact (clearCache_spec ⟨some "t", some "x", true, FALLBACK_HOST⟩
      (fun _ => ExchangeOutcome.success "fresh") "x" 0).1
  · exact (clearCache_spec ⟨some "t", some "x", true, FALLBACK_HOST⟩
      (fun _ => ExchangeOutcome.success "fresh") "x" 0).2.2.1
  · exact (clearCache_spec ⟨some "t", some "x", true, FALLBACK_HOST⟩
      (fun _ => ExchangeOutcome.success "fresh") "x" 0).2.2.2.2.1 "fresh" rfl
  · exact (clearCache_spec ⟨some "t", some "x", true, FALLBACK_HOST⟩
      (fun n => if n = 0 then ExchangeOutcome.failure true false
                else ExchangeOutcome.success "fresh") "x" 0).2.2.2.2.2
      false "fresh" rfl rfl

/-! ## C9: aggregation on the three-record set -/

/-- Record 1: model `A`, amount 10, cost 1 (token counters zero). -/
def aggA1 : UsageDetailItem :=
  { amount_float := 10, cost_money_float := 1, extra_info := ⟨0, 0, 0, 0⟩,
    mode := "", model_name := "A", session_id := "r1", usage_time := 0,
    use_max_mode := false }

/-- Record 2: model `A`, amount 5, cost 0.5. -/
def aggA2 : UsageDetailItem :=
  { aggA1 with amount_float := 5, cost_money_float := 1/2, session_id := "r2" }

/-- Record 3: model `B`, amount 2, cost 0.2. -/
def aggB : UsageDetailItem :=
  { aggA1 with
    amount_float := 2
    cost_money_float := 1/5
    model_name := "B"
    session_id := "r3" }

/-- C9: on the three-record set, `generateSummary` yields
`model_stats["A"] = {count: 2, amount: 15, cost: 1.5}`,
`model_stats["B"] = {count: 1, amount: 2, cost: 0.2}`,
`total_amount = 17` and `total_sessions = 3` — for every date-bucketing
function, since the model and total accumulators never consult it. -/
theorem generateSummary_three_records (dateOf : Int → String) :
    jsGet (generateSummary dateOf [aggA1, aggA2, aggB]).model_stats "A"
      = some ⟨2, 15, 3/2, 0, 0, 0, 0⟩ ∧
    jsGet (generateSummary dateOf [aggA1, aggA2, aggB]).model_stats "B"
      = some ⟨1, 2, 1/5, 0, 0, 0, 0⟩ ∧
    (generateSummary dateOf [aggA1, aggA2, aggB]).total_amount = 17 ∧
    (generateSummary dateOf [aggA1, aggA2, aggB]).total_sessions = 3 := by
  refine ⟨?_, ?_, ?_, ?_⟩ <;>
    simp [generateSummary, summaryStep, jsGet, jsSet, aggA1, aggA2, aggB] <;>
    norm_num

end TraeUsage
